/-
Verification of the floor-plan geometry/projection core of
blueprint-3d-roadmap against its specification.

Shallow embedding conventions:
* JS numbers are modelled as exact rationals (ℚ) wherever the code only
  does field arithmetic and comparisons; quantities produced by
  `Math.sqrt` / `Math.atan2` are modelled in ℝ (`Real.sqrt`, `Complex.arg`).
* `minX`/`maxX` bounds accumulators start at `+Infinity`/`-Infinity` in the
  source; the fold below uses `Option ℚ` with `none` standing for the
  untouched infinity (`Math.min(+∞, x) = x`, so the two agree on every
  step).  The bounding-box centre `(minX + maxX) / 2` is `NaN` in JS when
  both infinities survive; that `NaN`, and its propagation through
  `(p - NaN) * k`, is modelled as `none : Option ℚ`.
* Fallible UI actions that return without updating the plan are modelled
  as functions returning `Option FloorPlan` (`none` = no update).
-/
import Mathlib

/-- Measurement units, `'meters' | 'feet' | 'inches'` in the source. -/
inductive MUnit
  | meters
  | feet
  | inches
deriving DecidableEq, Repr

/-- `Point {x, y}` (floorplan-types.ts). -/
structure Point where
  x : ℚ
  y : ℚ
deriving DecidableEq, Repr

/-- `Wall` (floorplan-types.ts). -/
structure Wall where
  id : String
  start : Point
  «end» : Point
  thickness : ℚ
  height : ℚ
  texture : Option String := none
deriving DecidableEq, Repr

/-- `Room` (floorplan-types.ts). -/
structure Room where
  id : String
  name : String
  points : List Point
  color : String
  floorTexture : Option String := none
  wallTexture : Option String := none
deriving DecidableEq, Repr

/-- `Door` (floorplan-types.ts). -/
structure Door where
  id : String
  position : Point
  angle : ℚ
  width : ℚ
  wallId : Option String := none
deriving DecidableEq, Repr

/-- `Window` (floorplan-types.ts). -/
structure Window where
  id : String
  position : Point
  angle : ℚ
  width : ℚ
  height : ℚ
  wallId : Option String := none
deriving DecidableEq, Repr

/-- Cabinet type tags, `'base' | 'wall' | 'tall' | 'corner' | 'island'`. -/
inductive CabinetType
  | base
  | wall
  | tall
  | corner
  | island
deriving DecidableEq, Repr

/-- `Cabinet` (floorplan-types.ts). -/
structure Cabinet where
  id : String
  type : CabinetType
  position : Point
  angle : ℚ
  width : ℚ
  depth : ℚ
  height : ℚ
  color : String
deriving DecidableEq, Repr

/-- `Model3D` (floorplan-types.ts). -/
structure Model3D where
  id : String
  name : String
  position : Point
  angle : ℚ
  scale : ℚ
  height : ℚ
  modelUrl : String
deriving DecidableEq, Repr

/-- `PhotoReference` (floorplan-types.ts). -/
structure PhotoReference where
  id : String
  name : String
  url : String
  position : Point
  width : ℚ
  height : ℚ
  opacity : ℚ
  locked : Bool
deriving DecidableEq, Repr

/-- `Measurement` (floorplan-types.ts). -/
structure Measurement where
  id : String
  start : Point
  «end» : Point
  label : Option String := none
  visible : Bool
deriving DecidableEq, Repr

/-- `ScaleCalibration` (floorplan-types.ts). -/
structure ScaleCalibration where
  point1 : Point
  point2 : Point
  realWorldDistance : ℚ
  unit : MUnit
deriving DecidableEq, Repr

/-- `FloorPlan.metadata` (floorplan-types.ts). -/
structure Metadata where
  createdAt : String
  updatedAt : String
  scale : ℚ
  unit : MUnit
  showMeasurements : Bool
deriving DecidableEq, Repr

/-- `FloorPlan` (floorplan-types.ts).  `metadata` is optional in the
source interface, so it is optional here. -/
structure FloorPlan where
  id : String
  name : String
  walls : List Wall
  rooms : List Room
  doors : List Door
  windows : List Window
  cabinets : List Cabinet
  models3D : List Model3D
  photos : List PhotoReference
  measurements : List Measurement
  scaleCalibration : Option ScaleCalibration := none
  metadata : Option Metadata := none
deriving DecidableEq, Repr

/-- `floorPlan.metadata?.scale || 20`: the plan's scale with the source's
falsy default (missing metadata, or a stored scale of 0, falls back to 20). -/
def metaScale (fp : FloorPlan) : ℚ :=
  match fp.metadata with
  | none => 20
  | some md => if md.scale = 0 then 20 else md.scale

/-- `floorPlan.metadata?.unit || 'meters'`. -/
def metaUnit (fp : FloorPlan) : MUnit :=
  match fp.metadata with
  | none => MUnit.meters
  | some md => md.unit

/-! ## Geometry kernel (floorplan-utils, `unnamed/part_000`) -/

/-- The squared Euclidean distance `(p2.x-p1.x)² + (p2.y-p1.y)²`, the
radicand of `distance` in the source. -/
def sqDist (p1 p2 : Point) : ℚ :=
  (p2.x - p1.x) ^ 2 + (p2.y - p1.y) ^ 2

/-- `distance(p1, p2) = Math.sqrt((p2.x-p1.x)**2 + (p2.y-p1.y)**2)`. -/
noncomputable def distance (p1 p2 : Point) : ℝ :=
  Real.sqrt ((sqDist p1 p2 : ℚ) : ℝ)

/-- The squared value of `pointToLineDistance`: the source's clamped
projection onto the segment, with the degenerate-segment policy
(`param = -1` when the segment has zero length, which selects `lineStart`),
stopping just before the final `Math.sqrt`. -/
def pointToLineDistSq (point lineStart lineEnd : Point) : ℚ :=
  let A := point.x - lineStart.x
  let B := point.y - lineStart.y
  let C := lineEnd.x - lineStart.x
  let D := lineEnd.y - lineStart.y
  let dot := A * C + B * D
  let lenSq := C * C + D * D
  let param := if lenSq ≠ 0 then dot / lenSq else -1
  let xx := if param < 0 then lineStart.x
            else if param > 1 then lineEnd.x
            else lineStart.x + param * C
  let yy := if param < 0 then lineStart.y
            else if param > 1 then lineEnd.y
            else lineStart.y + param * D
  (point.x - xx) ^ 2 + (point.y - yy) ^ 2

/-- `pointToLineDistance(point, lineStart, lineEnd)`. -/
noncomputable def pointToLineDistance (point lineStart lineEnd : Point) : ℝ :=
  Real.sqrt ((pointToLineDistSq point lineStart lineEnd : ℚ) : ℝ)

/-- `Math.round`: round to the nearest integer, ties toward `+∞`. -/
def jsRound (q : ℚ) : ℤ := ⌊q + 1 / 2⌋

/-- `snapToGrid(point, gridSize)` — exactly as in the source, which never
validates `gridSize`:
`{ x: Math.round(point.x / gridSize) * gridSize, y: ... }`.
(Faithful for every `gridSize ≠ 0`; at `gridSize = 0` JS produces `NaN`
coordinates, which the rational model cannot represent.) -/
def snapToGrid (point : Point) (gridSize : ℚ) : Point :=
  { x := (jsRound (point.x / gridSize) : ℚ) * gridSize
    y := (jsRound (point.y / gridSize) : ℚ) * gridSize }

/-- Modelled from the spec (§4.1): the spec's version of `snapToGrid`,
which "fails with InvalidArgument" for `gridSize ≤ 0`.  The repository's
own `snapToGrid` (above) has no such check; this definition exists only to
be compared with it. -/
def snapToGridSpec (point : Point) (gridSize : ℚ) : Option Point :=
  if gridSize ≤ 0 then none else some (snapToGrid point gridSize)

/-- `isPointInPolygon(point, polygon)`: the even-odd ray-casting loop of
the source (`j` starts at the last index and trails `i`).  List indexing
uses a default for out-of-range indices, which never happens for
`i < polygon.length`. -/
def isPointInPolygon (point : Point) (polygon : List Point) : Bool :=
  (List.range polygon.length).foldl
    (fun inside i =>
      let j := if i = 0 then polygon.length - 1 else i - 1
      let pi := polygon.getD i ⟨0, 0⟩
      let pj := polygon.getD j ⟨0, 0⟩
      let intersect :=
        (decide (pi.y > point.y) != decide (pj.y > point.y)) &&
          decide (point.x < (pj.x - pi.x) * (point.y - pi.y) / (pj.y - pi.y) + pi.x)
      if intersect then !inside else inside)
    false

/-! ## Unit/scale conversion and measurement formatting -/

/-- `convertPixelsToRealWorld(pixels, scale, unit)`. -/
def convertPixelsToRealWorld (pixels scale : ℚ) (unit : MUnit) : ℚ :=
  let meters := pixels / scale
  match unit with
  | MUnit.feet => meters * 3.28084
  | MUnit.inches => meters * 39.3701
  | MUnit.meters => meters

/-- `convertRealWorldToPixels(realWorld, scale, unit)`. -/
def convertRealWorldToPixels (realWorld scale : ℚ) (unit : MUnit) : ℚ :=
  let meters := match unit with
    | MUnit.feet => realWorld / 3.28084
    | MUnit.inches => realWorld / 39.3701
    | MUnit.meters => realWorld
  meters * scale

/-- Format `n` (an integer count of `10^(-digits)` units) with a decimal
point `digits` places from the right, as JS renders `toFixed` output for a
non-negative value; a negative value gets a leading minus sign. -/
def fixedString (digits : ℕ) (n : ℤ) : String :=
  let m := n.natAbs
  let intPart := toString (m / 10 ^ digits)
  let fracPart := toString (m % 10 ^ digits)
  let pad := String.mk (List.replicate (digits - fracPart.length) '0')
  (if n < 0 then "-" else "") ++ intPart ++ "." ++ pad ++ fracPart

/-- `x.toFixed(digits)` on an exact rational: the nearest multiple of
`10^(-digits)`, ties toward the larger candidate (ECMA-262 Number.prototype
.toFixed picks the larger `n` on a tie). -/
def jsToFixed (digits : ℕ) (q : ℚ) : String :=
  fixedString digits ⌊q * 10 ^ digits + 1 / 2⌋

/-- `x.toFixed(digits)` for a real-valued input (the source formats values
derived from `Math.sqrt` lengths). -/
noncomputable def jsToFixedR (digits : ℕ) (x : ℝ) : String :=
  fixedString digits ⌊x * 10 ^ digits + 1 / 2⌋

/-- `convertPixelsToRealWorld` for a real-valued pixel length. -/
noncomputable def convertPixelsToRealWorldR (pixels : ℝ) (scale : ℚ) (unit : MUnit) : ℝ :=
  let meters := pixels / (scale : ℝ)
  match unit with
  | MUnit.feet => meters * 3.28084
  | MUnit.inches => meters * 39.3701
  | MUnit.meters => meters

/-- `formatMeasurement(pixels, scale, unit)`: convert, then format with
2 decimals + " m" / 2 decimals + " ft" / 1 decimal + " in". -/
noncomputable def formatMeasurement (pixels : ℝ) (scale : ℚ) (unit : MUnit) : String :=
  let value := convertPixelsToRealWorldR pixels scale unit
  match unit with
  | MUnit.feet => jsToFixedR 2 value ++ " ft"
  | MUnit.inches => jsToFixedR 1 value ++ " in"
  | MUnit.meters => jsToFixedR 2 value ++ " m"

/-! ## Auto-measurement generator -/

/-- The wall measurement pushed by `calculateAutoMeasurements`. -/
noncomputable def wallAutoMeasurement (scale : ℚ) (unit : MUnit) (w : Wall) : Measurement :=
  { id := "measure-wall-" ++ w.id
    start := w.start
    «end» := w.«end»
    label := some (formatMeasurement (distance w.start w.«end») scale unit)
    visible := true }

/-- The room-edge measurement pushed by `calculateAutoMeasurements` for
edge index `i` (the edge from `points[i]` to `points[(i+1) % length]`). -/
noncomputable def roomAutoMeasurement (scale : ℚ) (unit : MUnit) (r : Room) (i : ℕ)
    : Measurement :=
  let start := r.points.getD i ⟨0, 0⟩
  let stop := r.points.getD ((i + 1) % r.points.length) ⟨0, 0⟩
  { id := "measure-room-" ++ r.id ++ "-" ++ toString i
    start := start
    «end» := stop
    label := some (formatMeasurement (distance start stop) scale unit)
    visible := true }

/-- `calculateAutoMeasurements(floorPlan)`: one measurement per wall, then
one per room polygon edge (`i` ranging over all point indices, the last
edge closing the polygon).  Rooms are not filtered by point count. -/
noncomputable def calculateAutoMeasurements (fp : FloorPlan) : List Measurement :=
  let scale := metaScale fp
  let unit := metaUnit fp
  fp.walls.map (wallAutoMeasurement scale unit) ++
    fp.rooms.flatMap (fun r =>
      (List.range r.points.length).map (roomAutoMeasurement scale unit r))

/-- The measurement list the editor's `draw` displays (part_001 lines
299-315): the plan's explicit measurements when any exist, otherwise the
auto-generated ones. -/
noncomputable def displayedMeasurements (fp : FloorPlan) : List Measurement :=
  if fp.measurements.length > 0 then fp.measurements
  else calculateAutoMeasurements fp

/-! ## Hit-testing (part_001 `handleMouseDown`, select branch) -/

/-- Photo hit predicate: axis-aligned bounding-box containment
(`point.x >= photo.position.x && point.x <= photo.position.x + photo.width
&& ...`). -/
def photoHit (p : Point) (photo : PhotoReference) : Bool :=
  decide (p.x ≥ photo.position.x) && decide (p.x ≤ photo.position.x + photo.width) &&
    decide (p.y ≥ photo.position.y) && decide (p.y ≤ photo.position.y + photo.height)

/-- Model3D marker hit predicate: square box of side `40 * model.scale`
centred on the position (`dx < size/2 && dy < size/2` on absolute
offsets). -/
def modelHit (p : Point) (m : Model3D) : Bool :=
  let size := 40 * m.scale
  decide (|p.x - m.position.x| < size / 2) && decide (|p.y - m.position.y| < size / 2)

/-- Cabinet hit predicate: half-width/half-depth axis-aligned box, the
rotation angle ignored. -/
def cabinetHit (p : Point) (c : Cabinet) : Bool :=
  decide (|p.x - c.position.x| < c.width / 2) && decide (|p.y - c.position.y| < c.depth / 2)

/-- Wall hit predicate: `pointToLineDistance(point, wall.start, wall.end)
< 10`, stated on the squared distance (`√d < 10 ↔ d < 100`; see
`pointToLineDistance_lt_ten_iff`). -/
def wallHit (p : Point) (w : Wall) : Bool :=
  decide (pointToLineDistSq p w.start w.«end» < 100)

/-- Room hit predicate: `isPointInPolygon(point, room.points)`. -/
def roomHit (p : Point) (r : Room) : Bool :=
  isPointInPolygon p r.points

/-- Door hit predicate: `distance(point, door.position) < 20`, stated on
the squared distance (`√d < 20 ↔ d < 400`; see `distance_lt_twenty_iff`). -/
def doorHit (p : Point) (d : Door) : Bool :=
  decide (sqDist p d.position < 400)

/-- Window hit predicate: `distance(point, window.position) < 20`. -/
def windowHit (p : Point) (w : Window) : Bool :=
  decide (sqDist p w.position < 400)

/-- The select branch of `handleMouseDown`: each collection is scanned in
order for its first matching entity, and a later collection is only
consulted when every earlier one found nothing (the source's `found`
flag).  Returns the selected id, or `none` (the source's
`setSelectedId(null)`). -/
def hitTest (fp : FloorPlan) (p : Point) : Option String :=
  match fp.photos.find? (photoHit p) with
  | some photo => some photo.id
  | none =>
  match fp.models3D.find? (modelHit p) with
  | some m => some m.id
  | none =>
  match fp.cabinets.find? (cabinetHit p) with
  | some c => some c.id
  | none =>
  match fp.walls.find? (wallHit p) with
  | some w => some w.id
  | none =>
  match fp.rooms.find? (roomHit p) with
  | some r => some r.id
  | none =>
  match fp.doors.find? (doorHit p) with
  | some d => some d.id
  | none =>
  match fp.windows.find? (windowHit p) with
  | some w => some w.id
  | none => none

/-- The delete branch of `handleMouseDown`: every collection is filtered
by its keep-condition, written exactly as in the source (the negated /
`>=`-form of each hit predicate). -/
def deleteAt (fp : FloorPlan) (p : Point) : FloorPlan :=
  { fp with
    photos := fp.photos.filter (fun photo =>
      !(decide (p.x ≥ photo.position.x) && decide (p.x ≤ photo.position.x + photo.width) &&
        decide (p.y ≥ photo.position.y) && decide (p.y ≤ photo.position.y + photo.height)))
    models3D := fp.models3D.filter (fun m =>
      let size := 40 * m.scale
      decide (|p.x - m.position.x| ≥ size / 2) || decide (|p.y - m.position.y| ≥ size / 2))
    cabinets := fp.cabinets.filter (fun c =>
      decide (|p.x - c.position.x| ≥ c.width / 2) || decide (|p.y - c.position.y| ≥ c.depth / 2))
    walls := fp.walls.filter (fun w =>
      decide (pointToLineDistSq p w.start w.«end» ≥ 100))
    rooms := fp.rooms.filter (fun r => !isPointInPolygon p r.points)
    doors := fp.doors.filter (fun d => decide (sqDist p d.position ≥ 400))
    windows := fp.windows.filter (fun w => decide (sqDist p w.position ≥ 400)) }

/-! ## Scale calibration (part_001 `handleSetScale`) -/

/-- The `switch (scaleUnit)` conversion of the declared real-world length
to meters (`feet: v / 3.28084`, `inches: v / 39.3701`). -/
def declaredToMeters (realWorld : ℚ) (unit : MUnit) : ℚ :=
  match unit with
  | MUnit.feet => realWorld / 3.28084
  | MUnit.inches => realWorld / 39.3701
  | MUnit.meters => realWorld

/-- Fallback metadata for the (never exercised) case in which the source's
non-null assertion `floorPlan.metadata!` would already have been wrong. -/
def emptyMetadata : Metadata :=
  { createdAt := "", updatedAt := "", scale := 20, unit := MUnit.meters
    showMeasurements := true }

/-- `handleSetScale`: `pixels` is the already-computed
`distance(dragStart, currentPoint)` (passed separately because the source
computes it with `Math.sqrt`; theorems relate it back to `distance`).
`scaleDistance` is the `parseFloat` result, `none` standing for `NaN`
(non-numeric or empty input).  A guard failure shows a toast and returns
without calling `onFloorPlanChange`, modelled as `none` (the plan, and in
particular `metadata.scale`, stays as it was). -/
def handleSetScale (fp : FloorPlan) (dragStart currentPoint : Point) (pixels : ℚ)
    (scaleDistance : Option ℚ) (scaleUnit : MUnit) : Option FloorPlan :=
  match scaleDistance with
  | none => none
  | some realWorld =>
    if realWorld ≤ 0 then none
    else
      some { fp with
        scaleCalibration := some
          { point1 := dragStart, point2 := currentPoint
            realWorldDistance := realWorld, unit := scaleUnit }
        metadata := some { fp.metadata.getD emptyMetadata with
          scale := pixels / declaredToMeters realWorld scaleUnit
          unit := scaleUnit } }

/-! ## 2D→3D projection pipeline (floorplan-3d-converter.ts) -/

/-- Mesh type tags of `FloorPlan3DData`. -/
inductive MeshType
  | wall
  | floor
  | door
  | window
  | ceiling
  | cabinet
  | model3d
deriving DecidableEq, Repr

/-- Geometry descriptors: the THREE geometry constructor and its size
parameters (`BoxGeometry`, `ShapeGeometry` from projected outline points,
`CylinderGeometry`). -/
inductive Geom
  | box (width height depth : ℝ)
  | shape (outline : List (Option ℚ × Option ℚ))
  | cylinder (radiusTop radiusBottom height : ℝ) (radialSegments : ℕ)

/-- A 3D position `[x, y, z]`.  The horizontal coordinates come from the
bounding-box-centred projection and are `Option ℚ` (`none` = the JS `NaN`
produced when the bounds are empty); the elevation `y` is always a plain
number. -/
structure Vec3 where
  x : Option ℚ
  y : ℚ
  z : Option ℚ

/-- A rotation triple `[x, y, z]` (radians; wall yaw uses `atan2`). -/
structure Rot3 where
  x : ℝ
  y : ℝ
  z : ℝ

/-- One emitted mesh descriptor (geometry, position, rotation, type tag,
owning id, optional model URL).  Material hints carry no geometry and are
not modelled. -/
structure Mesh where
  geometry : Geom
  position : Vec3
  rotation : Rot3
  type : MeshType
  id : String
  modelUrl : Option String := none

/-- `Math.atan2(y, x)`: the argument of the complex number `x + y·i`. -/
noncomputable def atan2 (y x : ℝ) : ℝ := Complex.arg ⟨x, y⟩

/-- The bounds of `FloorPlan3DData`: each field `none` when the
corresponding accumulator was never updated (JS `±Infinity`). -/
structure Bounds3D where
  minX : Option ℚ
  maxX : Option ℚ
  minY : Option ℚ
  maxY : Option ℚ
deriving DecidableEq, Repr

/-- `FloorPlan3DData`: the emitted mesh list plus the bounding box. -/
structure FloorPlan3DData where
  meshes : List Mesh
  bounds : Bounds3D

/-- Fold `Math.min` over a list, starting from `+Infinity` (`none`). -/
def foldMin (xs : List ℚ) : Option ℚ :=
  xs.foldl (fun acc v => some (match acc with | none => v | some a => min a v)) none

/-- Fold `Math.max` over a list, starting from `-Infinity` (`none`). -/
def foldMax (xs : List ℚ) : Option ℚ :=
  xs.foldl (fun acc v => some (match acc with | none => v | some a => max a v)) none

/-- The x-coordinates feeding the bounds: both endpoints of every wall,
then every room vertex (the source's two `forEach` loops). -/
def boundsXs (fp : FloorPlan) : List ℚ :=
  fp.walls.flatMap (fun w => [w.start.x, w.«end».x]) ++
    fp.rooms.flatMap (fun r => r.points.map Point.x)

/-- The y-coordinates feeding the bounds. -/
def boundsYs (fp : FloorPlan) : List ℚ :=
  fp.walls.flatMap (fun w => [w.start.y, w.«end».y]) ++
    fp.rooms.flatMap (fun r => r.points.map Point.y)

/-- `(minX + maxX) / 2`: the horizontal centre of the bounding box.  When
no wall or room vertex exists, `minX = +∞` and `maxX = -∞`, and the JS sum
`∞ + (-∞)` is `NaN`: modelled as `none`. -/
def centerX (fp : FloorPlan) : Option ℚ :=
  match foldMin (boundsXs fp), foldMax (boundsXs fp) with
  | some mn, some mx => some ((mn + mx) / 2)
  | _, _ => none

/-- `(minY + maxY) / 2`, `none` for the empty-bounds `NaN`. -/
def centerY (fp : FloorPlan) : Option ℚ :=
  match foldMin (boundsYs fp), foldMax (boundsYs fp) with
  | some mn, some mx => some ((mn + mx) / 2)
  | _, _ => none

/-- `(coord - center) * 0.1 * scale`: the uniform projection into the 3D
horizontal plane.  `scale` here is the normalized `metaScale fp / 20`.  A
`NaN` centre (`none`) propagates into the result, as in JS arithmetic. -/
def projectCoord (center : Option ℚ) (scale : ℚ) (coord : ℚ) : Option ℚ :=
  center.map (fun c => (coord - c) * 0.1 * scale)

/-- `wall.height || 2.7`. -/
def wallHeightOf (w : Wall) : ℚ := if w.height = 0 then 2.7 else w.height

/-- `window.height || 1.5`. -/
def windowHeightOf (w : Window) : ℚ := if w.height = 0 then 1.5 else w.height

/-- The wall box emitted by `convertFloorPlanTo3D` (lines 46-95): size
`(length·0.1·scale, wallHeight, thickness·0.1·scale)`, centred at the
projected wall midpoint, at elevation `wallHeight / 2`, yawed by
`atan2(dy, dx)`. -/
noncomputable def wallMesh (cx cy : Option ℚ) (scale : ℚ) (w : Wall) : Mesh :=
  let dx := w.«end».x - w.start.x
  let dy := w.«end».y - w.start.y
  let length : ℝ := Real.sqrt (((dx * dx + dy * dy : ℚ) : ℝ))
  let angle := atan2 (dy : ℝ) (dx : ℝ)
  let midX := (w.start.x + w.«end».x) / 2
  let midY := (w.start.y + w.«end».y) / 2
  let wallHeight := wallHeightOf w
  { geometry := Geom.box (length * 0.1 * (scale : ℝ)) (wallHeight : ℝ)
      ((w.thickness : ℝ) * 0.1 * (scale : ℝ))
    position := { x := projectCoord cx scale midX, y := wallHeight / 2
                  z := projectCoord cy scale midY }
    rotation := { x := 0, y := angle, z := 0 }
    type := MeshType.wall
    id := w.id }

/-- The floor and ceiling meshes emitted per room (lines 98-166); a room
with fewer than 3 points is skipped. -/
noncomputable def roomMeshes (cx cy : Option ℚ) (scale : ℚ) (r : Room) : List Mesh :=
  if r.points.length < 3 then []
  else
    let outline := r.points.map (fun p =>
      (projectCoord cx scale p.x, projectCoord cy scale p.y))
    [{ geometry := Geom.shape outline
       position := { x := some 0, y := 0.01, z := some 0 }
       rotation := { x := -(Real.pi / 2), y := 0, z := 0 }
       type := MeshType.floor
       id := r.id },
     { geometry := Geom.shape outline
       position := { x := some 0, y := 2.7, z := some 0 }
       rotation := { x := -(Real.pi / 2), y := 0, z := 0 }
       type := MeshType.ceiling
       id := r.id ++ "-ceiling" }]

/-- The door box (lines 169-193). -/
noncomputable def doorMesh (cx cy : Option ℚ) (scale : ℚ) (d : Door) : Mesh :=
  { geometry := Geom.box ((d.width : ℝ) * 0.1 * (scale : ℝ)) 2.0 0.05
    position := { x := projectCoord cx scale d.position.x, y := 1.0
                  z := projectCoord cy scale d.position.y }
    rotation := { x := 0, y := (d.angle : ℝ), z := 0 }
    type := MeshType.door
    id := d.id }

/-- The window box (lines 196-222). -/
noncomputable def windowMesh (cx cy : Option ℚ) (scale : ℚ) (w : Window) : Mesh :=
  { geometry := Geom.box ((w.width : ℝ) * 0.1 * (scale : ℝ)) (windowHeightOf w : ℝ) 0.05
    position := { x := projectCoord cx scale w.position.x, y := 1.5
                  z := projectCoord cy scale w.position.y }
    rotation := { x := 0, y := (w.angle : ℝ), z := 0 }
    type := MeshType.window
    id := w.id }

/-- `cabinet.type === 'wall' ? 1.8 : cabinet.height / 2`. -/
def cabinetElevation (c : Cabinet) : ℚ :=
  if c.type = CabinetType.wall then 1.8 else c.height / 2

/-- `cabinet.depth * 0.1 * scale / 2 + 0.025`: the handle's offset, added
to the projected `z` coordinate (line 271) — a world-axis offset that does
not rotate with the cabinet's angle. -/
def handleOffset (scale : ℚ) (c : Cabinet) : ℚ :=
  c.depth * 0.1 * scale / 2 + 0.025

/-- The cabinet body box plus, unless the type is `island`, the
cylindrical handle (lines 225-277).  The handle is placed at
`[x, yPosition, z + handleOffset]` — offset along the world z-axis — and
rotated `[π/2, 0, cabinet.angle]`. -/
noncomputable def cabinetMeshes (cx cy : Option ℚ) (scale : ℚ) (c : Cabinet) : List Mesh :=
  let x := projectCoord cx scale c.position.x
  let z := projectCoord cy scale c.position.y
  let yPosition := cabinetElevation c
  let body : Mesh :=
    { geometry := Geom.box ((c.width : ℝ) * 0.1 * (scale : ℝ)) (c.height : ℝ)
        ((c.depth : ℝ) * 0.1 * (scale : ℝ))
      position := { x := x, y := yPosition, z := z }
      rotation := { x := 0, y := (c.angle : ℝ), z := 0 }
      type := MeshType.cabinet
      id := c.id }
  if c.type = CabinetType.island then [body]
  else
    [body,
     { geometry := Geom.cylinder 0.02 0.02 0.05 8
       position := { x := x, y := yPosition, z := z.map (· + handleOffset scale c) }
       rotation := { x := Real.pi / 2, y := 0, z := (c.angle : ℝ) }
       type := MeshType.cabinet
       id := c.id ++ "-handle" }]

/-- The translucent placeholder cube for a 3D model marker (lines
280-304): side `0.5 * model.scale`, elevated `model.height + size / 2`. -/
noncomputable def modelMesh (cx cy : Option ℚ) (scale : ℚ) (m : Model3D) : Mesh :=
  let size := 0.5 * m.scale
  { geometry := Geom.box (size : ℝ) (size : ℝ) (size : ℝ)
    position := { x := projectCoord cx scale m.position.x, y := m.height + size / 2
                  z := projectCoord cy scale m.position.y }
    rotation := { x := 0, y := (m.angle : ℝ), z := 0 }
    type := MeshType.model3d
    id := m.id
    modelUrl := some m.modelUrl }

/-- `convertFloorPlanTo3D(floorPlan)`: normalized scale
`(metadata?.scale || 20) / 20`, bounds over wall endpoints and room
vertices, then the mesh emissions in source order: walls, rooms (floor
before ceiling), doors, windows, cabinets (body before handle), models. -/
noncomputable def convertFloorPlanTo3D (fp : FloorPlan) : FloorPlan3DData :=
  let scale := metaScale fp / 20
  let cx := centerX fp
  let cy := centerY fp
  { meshes :=
      fp.walls.map (wallMesh cx cy scale) ++
        (fp.rooms.flatMap (roomMeshes cx cy scale) ++
          (fp.doors.map (doorMesh cx cy scale) ++
            (fp.windows.map (windowMesh cx cy scale) ++
              (fp.cabinets.flatMap (cabinetMeshes cx cy scale) ++
                fp.models3D.map (modelMesh cx cy scale)))))
    bounds :=
      { minX := foldMin (boundsXs fp), maxX := foldMax (boundsXs fp)
        minY := foldMin (boundsYs fp), maxY := foldMax (boundsYs fp) } }

/-- Modelled from the spec (§4.7 step 6): the handle centre the spec
describes, "offset outward along the cabinet's local depth axis from its
centre" — i.e. the world offset obtained by rotating `(0, offset)` by the
cabinet's yaw: `(x + offset·sin θ, z + offset·cos θ)`.  The repository's
converter instead adds the offset to `z` only, for every angle. -/
noncomputable def specHandleCenter (x z offset θ : ℝ) : ℝ × ℝ :=
  (x + offset * Real.sin θ, z + offset * Real.cos θ)

/-! ## Bridging lemmas: square-root comparisons against fixed thresholds.
The source compares `Math.sqrt`-valued distances with `10` and `20`; the
Boolean hit predicates above use the equivalent squared comparison. -/

/-- `distance p q < 20` is the squared comparison `sqDist p q < 400`. -/
theorem distance_lt_twenty_iff (p q : Point) : distance p q < 20 ↔ sqDist p q < 400 := by
  unfold distance
  rw [Real.sqrt_lt' (by norm_num : (0 : ℝ) < 20)]
  constructor <;> intro h <;> exact_mod_cast h

/-- `pointToLineDistance p a b < 10` is the squared comparison
`pointToLineDistSq p a b < 100`. -/
theorem pointToLineDistance_lt_ten_iff (p a b : Point) :
    pointToLineDistance p a b < 10 ↔ pointToLineDistSq p a b < 100 := by
  unfold pointToLineDistance
  rw [Real.sqrt_lt' (by norm_num : (0 : ℝ) < 10)]
  constructor <;> intro h <;> exact_mod_cast h

/-! ## C8 — unit conversion round trip -/

/-- C8: for every value `v`, every positive `scale` and every unit, the
pixel round trip is the identity:
`convertPixelsToRealWorld (convertRealWorldToPixels v scale unit) scale unit = v`
(exactly, in the exact-rational model, hence within any floating
tolerance). -/
theorem unit_conversion_round_trip (v scale : ℚ) (unit : MUnit) (hs : 0 < scale) :
    convertPixelsToRealWorld (convertRealWorldToPixels v scale unit) scale unit = v := by
  have h : scale ≠ 0 := ne_of_gt hs
  cases unit <;>
    simp only [convertPixelsToRealWorld, convertRealWorldToPixels] <;>
    field_simp <;> ring

/-- Witness for C8 at `v = 7`, `scale = 20`, `unit = feet`. -/
theorem unit_conversion_round_trip_witness :
    (0 : ℚ) < 20 ∧
      convertPixelsToRealWorld (convertRealWorldToPixels 7 20 MUnit.feet) 20 MUnit.feet = 7 :=
  ⟨by norm_num, unit_conversion_round_trip 7 20 MUnit.feet (by norm_num)⟩

/-! ## C6 — snapToGrid -/

/-- `Math.round` lands within `1/2` of its argument. -/
theorem jsRound_close (x : ℚ) : |(jsRound x : ℚ) - x| ≤ 1 / 2 := by
  unfold jsRound
  have h1 : ((⌊x + 1 / 2⌋ : ℤ) : ℚ) ≤ x + 1 / 2 := Int.floor_le _
  have h2 : x + 1 / 2 - 1 < ((⌊x + 1 / 2⌋ : ℤ) : ℚ) := Int.sub_one_lt_floor _
  rw [abs_le]
  constructor <;> linarith

/-- One snapped coordinate is within `|gridSize| / 2` of the original. -/
theorem snap_coord_close (q g : ℚ) (hg : g ≠ 0) :
    |(jsRound (q / g) : ℚ) * g - q| ≤ |g| / 2 := by
  have h := jsRound_close (q / g)
  have hrw : (jsRound (q / g) : ℚ) * g - q = ((jsRound (q / g) : ℚ) - q / g) * g := by
    field_simp
  rw [hrw, abs_mul]
  calc |(jsRound (q / g) : ℚ) - q / g| * |g| ≤ 1 / 2 * |g| :=
        mul_le_mul_of_nonneg_right h (abs_nonneg g)
    _ = |g| / 2 := by ring

/-- C6 counterexample: the claim says `snapToGrid` "fails with an
InvalidArgument error when gridSize ≤ 0".  The source has no validation at
all: at `gridSize = -5` the spec-modelled version fails while the code
happily returns `(5, 0)` for the point `(7, 0)`. -/
theorem snapToGrid_validation_counterexample :
    snapToGridSpec ⟨7, 0⟩ (-5) = none ∧ snapToGrid ⟨7, 0⟩ (-5) = ⟨5, 0⟩ := by
  constructor
  · rfl
  · have h1 : jsRound ((7 : ℚ) / (-5)) = -1 := by
      unfold jsRound
      norm_num
    have h2 : jsRound ((0 : ℚ) / (-5)) = 0 := by
      unfold jsRound
      norm_num
    show Point.mk ((jsRound ((7 : ℚ) / (-5)) : ℚ) * (-5)) ((jsRound ((0 : ℚ) / (-5)) : ℚ) * (-5)) =
      ⟨5, 0⟩
    rw [h1, h2]
    norm_num

/-- C6 amended: `snapToGrid` never fails and performs no gridSize
validation; for every `gridSize ≠ 0` (including negative values) each
coordinate is rounded independently to a multiple of `gridSize` at most
`|gridSize| / 2` away (nearest multiple, ties toward `+∞`). -/
theorem snapToGrid_rounds_no_validation (p : Point) (g : ℚ) (hg : g ≠ 0) :
    (∃ kx : ℤ, (snapToGrid p g).x = (kx : ℚ) * g) ∧
      (∃ ky : ℤ, (snapToGrid p g).y = (ky : ℚ) * g) ∧
      |(snapToGrid p g).x - p.x| ≤ |g| / 2 ∧
      |(snapToGrid p g).y - p.y| ≤ |g| / 2 :=
  ⟨⟨jsRound (p.x / g), rfl⟩, ⟨jsRound (p.y / g), rfl⟩,
    snap_coord_close p.x g hg, snap_coord_close p.y g hg⟩

/-- Witness for C6 (amended) at `p = (7, 9)`, `gridSize = 4`. -/
theorem snapToGrid_rounds_no_validation_witness :
    (∃ kx : ℤ, (snapToGrid ⟨7, 9⟩ 4).x = (kx : ℚ) * 4) ∧
      (∃ ky : ℤ, (snapToGrid ⟨7, 9⟩ 4).y = (ky : ℚ) * 4) ∧
      |(snapToGrid ⟨7, 9⟩ 4).x - (7 : ℚ)| ≤ |(4 : ℚ)| / 2 ∧
      |(snapToGrid ⟨7, 9⟩ 4).y - (9 : ℚ)| ≤ |(4 : ℚ)| / 2 :=
  snapToGrid_rounds_no_validation ⟨7, 9⟩ 4 (by norm_num)

/-! ## C4 — scale calibration -/

/-- A default plan as `createDefaultFloorPlan` builds it (timestamps are
opaque strings here). -/
def basePlan : FloorPlan :=
  { id := "floorplan-0", name := "New Floor Plan"
    walls := [], rooms := [], doors := [], windows := [], cabinets := []
    models3D := [], photos := [], measurements := []
    metadata := some { createdAt := "", updatedAt := "", scale := 20
                       unit := MUnit.meters, showMeasurements := true } }

/-- C4: with a numeric declared length `v > 0`, `handleSetScale` stores
`scale = pixelLength / meters` (with the fixed per-unit factors) and the
declared unit; with `v ≤ 0` or a non-numeric input (`none`) it fails and
no updated plan is produced, so `metadata.scale` stays as it was.  The
last two conjuncts check the spec scenario: a 200 px segment (the segment
from `(0,0)` to `(200,0)` has pixel length exactly 200) declared as
10 feet yields scale `65.6168`. -/
theorem scale_calibration_updates (fp : FloorPlan) (dragStart currentPoint : Point)
    (pixels v : ℚ) (unit : MUnit) (md : Metadata) (hmd : fp.metadata = some md) :
    (0 < v →
      handleSetScale fp dragStart currentPoint pixels (some v) unit =
        some { fp with
          scaleCalibration := some
            { point1 := dragStart, point2 := currentPoint
              realWorldDistance := v, unit := unit }
          metadata := some { md with
            scale := pixels / declaredToMeters v unit, unit := unit } }) ∧
    (v ≤ 0 → handleSetScale fp dragStart currentPoint pixels (some v) unit = none) ∧
    handleSetScale fp dragStart currentPoint pixels none unit = none ∧
    (200 : ℚ) / declaredToMeters 10 MUnit.feet = 65.6168 ∧
    distance ⟨0, 0⟩ ⟨200, 0⟩ = 200 := by
  refine ⟨fun hv => ?_, fun hv => ?_, rfl, ?_, ?_⟩
  · simp only [handleSetScale]
    rw [if_neg (not_le.mpr hv), hmd]
    rfl
  · simp only [handleSetScale]
    rw [if_pos hv]
  · unfold declaredToMeters
    norm_num
  · unfold distance sqDist
    norm_num
    rw [show (40000 : ℝ) = 200 ^ 2 by norm_num]
    exact Real.sqrt_sq (by norm_num)

/-- Witness for C4 on the default plan, with the scenario's 200 px
segment declared as 10 feet. -/
theorem scale_calibration_updates_witness :
    (0 < (10 : ℚ) →
      handleSetScale basePlan ⟨0, 0⟩ ⟨200, 0⟩ 200 (some 10) MUnit.feet =
        some { basePlan with
          scaleCalibration := some
            { point1 := ⟨0, 0⟩, point2 := ⟨200, 0⟩
              realWorldDistance := 10, unit := MUnit.feet }
          metadata := some { createdAt := "", updatedAt := "", scale := 200 / declaredToMeters 10 MUnit.feet, unit := MUnit.feet, showMeasurements := true } }) ∧
    ((10 : ℚ) ≤ 0 → handleSetScale basePlan ⟨0, 0⟩ ⟨200, 0⟩ 200 (some 10) MUnit.feet = none) ∧
    handleSetScale basePlan ⟨0, 0⟩ ⟨200, 0⟩ 200 none MUnit.feet = none ∧
    (200 : ℚ) / declaredToMeters 10 MUnit.feet = 65.6168 ∧
    distance ⟨0, 0⟩ ⟨200, 0⟩ = 200 :=
  scale_calibration_updates basePlan ⟨0, 0⟩ ⟨200, 0⟩ 200 10 MUnit.feet
    { createdAt := "", updatedAt := "", scale := 20, unit := MUnit.meters
      showMeasurements := true } rfl

/-! ## C3 — hit-testing priority -/

/-- The head of a filtered-and-projected list is the projection of the
first match. -/
theorem head_filter_map_eq {α β : Type} (l : List α) (pr : α → Bool) (f : α → β) :
    ((l.filter pr).map f).head? = (l.find? pr).map f := by
  induction l with
  | nil => rfl
  | cons a t ih =>
    by_cases h : pr a <;> simp [List.filter_cons, List.find?_cons, h, ih]

/-- C3: `hitTest` returns the head of the priority-ordered concatenation
of each type's matches — photos, then 3D-model markers, then cabinets,
then walls, then rooms, then doors, then windows, each collection
contributing its matching entities in order.  (So a point inside a room
polygon that also lies within 10 px of a wall selects the wall.)  The
final conjuncts restate the square-root-free wall/door/window predicates
as the source's `< 10` / `< 20` distance comparisons. -/
theorem hit_test_priority_order (fp : FloorPlan) (p : Point) :
    (hitTest fp p =
      ((fp.photos.filter (photoHit p)).map PhotoReference.id ++
        ((fp.models3D.filter (modelHit p)).map Model3D.id ++
          ((fp.cabinets.filter (cabinetHit p)).map Cabinet.id ++
            ((fp.walls.filter (wallHit p)).map Wall.id ++
              ((fp.rooms.filter (roomHit p)).map Room.id ++
                ((fp.doors.filter (doorHit p)).map Door.id ++
                  (fp.windows.filter (windowHit p)).map Window.id)))))).head?) ∧
    (∀ w : Wall, wallHit p w = true ↔ pointToLineDistance p w.start w.«end» < 10) ∧
    (∀ d : Door, doorHit p d = true ↔ distance p d.position < 20) ∧
    (∀ w : Window, windowHit p w = true ↔ distance p w.position < 20) := by
  refine ⟨?_, fun w => ?_, fun d => ?_, fun w => ?_⟩
  · simp only [List.head?_append, head_filter_map_eq]
    unfold hitTest
    rcases fp.photos.find? (photoHit p) with _ | a <;>
      rcases fp.models3D.find? (modelHit p) with _ | b <;>
      rcases fp.cabinets.find? (cabinetHit p) with _ | c <;>
      rcases fp.walls.find? (wallHit p) with _ | d <;>
      rcases fp.rooms.find? (roomHit p) with _ | e <;>
      rcases fp.doors.find? (doorHit p) with _ | f <;>
      rcases fp.windows.find? (windowHit p) with _ | g <;>
      rfl
  · rw [pointToLineDistance_lt_ten_iff]
    unfold wallHit
    exact decide_eq_true_iff
  · rw [distance_lt_twenty_iff]
    unfold doorHit
    exact decide_eq_true_iff
  · rw [distance_lt_twenty_iff]
    unfold windowHit
    exact decide_eq_true_iff

/-! ## C5 — deletion removes every match of the selection predicates -/

/-- C5: in one pass, `deleteAt` keeps exactly the entities that do NOT
satisfy the corresponding selection hit predicate — across all seven
entity types — so every matching entity is removed and every
non-matching entity remains. -/
theorem delete_removes_all_matching (fp : FloorPlan) (p : Point) :
    deleteAt fp p =
      { fp with
        photos := fp.photos.filter (fun x => !photoHit p x)
        models3D := fp.models3D.filter (fun x => !modelHit p x)
        cabinets := fp.cabinets.filter (fun x => !cabinetHit p x)
        walls := fp.walls.filter (fun x => !wallHit p x)
        rooms := fp.rooms.filter (fun x => !roomHit p x)
        doors := fp.doors.filter (fun x => !doorHit p x)
        windows := fp.windows.filter (fun x => !windowHit p x) } := by
  unfold deleteAt
  have hphotos : ∀ x ∈ fp.photos,
      (!(decide (p.x ≥ x.position.x) && decide (p.x ≤ x.position.x + x.width) &&
        decide (p.y ≥ x.position.y) && decide (p.y ≤ x.position.y + x.height))) =
        (!photoHit p x) := by
    intro x _
    rfl
  have hmodels : ∀ x ∈ fp.models3D,
      (decide (|p.x - x.position.x| ≥ 40 * x.scale / 2) ||
        decide (|p.y - x.position.y| ≥ 40 * x.scale / 2)) = (!modelHit p x) := by
    intro x _
    simp [modelHit, Bool.not_and, ge_iff_le, ← not_lt, decide_not]
  have hcabinets : ∀ x ∈ fp.cabinets,
      (decide (|p.x - x.position.x| ≥ x.width / 2) ||
        decide (|p.y - x.position.y| ≥ x.depth / 2)) = (!cabinetHit p x) := by
    intro x _
    simp [cabinetHit, Bool.not_and, ge_iff_le, ← not_lt, decide_not]
  have hwalls : ∀ x ∈ fp.walls,
      (decide (pointToLineDistSq p x.start x.«end» ≥ 100)) = (!wallHit p x) := by
    intro x _
    simp [wallHit, ge_iff_le, ← not_lt, decide_not]
  have hdoors : ∀ x ∈ fp.doors,
      (decide (sqDist p x.position ≥ 400)) = (!doorHit p x) := by
    intro x _
    simp [doorHit, ge_iff_le, ← not_lt, decide_not]
  have hwindows : ∀ x ∈ fp.windows,
      (decide (sqDist p x.position ≥ 400)) = (!windowHit p x) := by
    intro x _
    simp [windowHit, ge_iff_le, ← not_lt, decide_not]
  have hrooms : ∀ x ∈ fp.rooms, (!isPointInPolygon p x.points) = (!roomHit p x) :=
    fun x _ => rfl
  rw [List.filter_congr hphotos, List.filter_congr hmodels, List.filter_congr hcabinets,
    List.filter_congr hwalls, List.filter_congr hrooms, List.filter_congr hdoors,
    List.filter_congr hwindows]

/-! ## C7 — auto-measurement generation -/

/-- The scenario plan: a single wall from `(0,0)` to `(100,0)` at
scale 20 px/m, unit meters, and no explicit measurements. -/
def wallScenarioPlan : FloorPlan :=
  { id := "p", name := "p"
    walls := [{ id := "w1", start := ⟨0, 0⟩, «end» := ⟨100, 0⟩, thickness := 8, height := 2.7 }]
    rooms := [], doors := [], windows := [], cabinets := [], models3D := []
    photos := [], measurements := []
    metadata := some { createdAt := "", updatedAt := "", scale := 20
                       unit := MUnit.meters, showMeasurements := true } }

/-- C7: the generator emits one measurement per wall (start→end, id
`measure-wall-<wallId>`) and one per room polygon edge including the
closing edge (id `measure-room-<roomId>-<i>`), each labelled by
`formatMeasurement` of the edge's pixel length; the editor displays the
explicit measurements instead whenever any exist; and the scenario wall
`(0,0)→(100,0)` at 20 px/m in meters is labelled `"5.00 m"`. -/
theorem auto_measurements_per_wall_and_room_edge :
    (∀ fp : FloorPlan,
      calculateAutoMeasurements fp =
        fp.walls.map (fun w =>
          { id := "measure-wall-" ++ w.id
            start := w.start
            «end» := w.«end»
            label := some (formatMeasurement (distance w.start w.«end»)
              (metaScale fp) (metaUnit fp))
            visible := true }) ++
          fp.rooms.flatMap (fun r =>
            (List.range r.points.length).map (fun i =>
              { id := "measure-room-" ++ r.id ++ "-" ++ toString i
                start := r.points.getD i ⟨0, 0⟩
                «end» := r.points.getD ((i + 1) % r.points.length) ⟨0, 0⟩
                label := some (formatMeasurement
                  (distance (r.points.getD i ⟨0, 0⟩)
                    (r.points.getD ((i + 1) % r.points.length) ⟨0, 0⟩))
                  (metaScale fp) (metaUnit fp))
                visible := true }))) ∧
    (∀ fp : FloorPlan,
      displayedMeasurements fp =
        if fp.measurements.length > 0 then fp.measurements
        else calculateAutoMeasurements fp) ∧
    (calculateAutoMeasurements wallScenarioPlan).map Measurement.label = [some "5.00 m"] := by
  refine ⟨fun fp => rfl, fun fp => rfl, ?_⟩
  have hdist : distance ⟨0, 0⟩ ⟨100, 0⟩ = 100 := by
    unfold distance sqDist
    norm_num
    rw [show (10000 : ℝ) = 100 ^ 2 by norm_num]
    exact Real.sqrt_sq (by norm_num)
  show [some (formatMeasurement (distance ⟨0, 0⟩ ⟨100, 0⟩)
      (metaScale wallScenarioPlan) (metaUnit wallScenarioPlan))] = [some "5.00 m"]
  rw [hdist]
  show [some (formatMeasurement 100 20 MUnit.meters)] = [some "5.00 m"]
  have hval : convertPixelsToRealWorldR 100 20 MUnit.meters = 5 := by
    unfold convertPixelsToRealWorldR
    norm_num
  have hfloor : ⌊(5 : ℝ) * 10 ^ 2 + 1 / 2⌋ = 500 := by
    rw [Int.floor_eq_iff]
    norm_num
  unfold formatMeasurement
  rw [hval]
  show [some (jsToFixedR 2 5 ++ " m")] = [some "5.00 m"]
  unfold jsToFixedR
  rw [hfloor]
  rfl

/-! ## C10 — rooms with fewer than 3 points still get measurements -/

/-- C10: `calculateAutoMeasurements` does not skip degenerate rooms: a
2-point room contributes the segment and its reverse, a 1-point room a
single zero-length measurement from the point to itself. -/
theorem auto_measurements_small_rooms :
    (∀ (fp : FloorPlan) (r : Room) (p0 p1 : Point),
      fp.walls = [] → fp.rooms = [r] → r.points = [p0, p1] →
      calculateAutoMeasurements fp =
        [{ id := "measure-room-" ++ r.id ++ "-" ++ toString 0
           start := p0, «end» := p1
           label := some (formatMeasurement (distance p0 p1) (metaScale fp) (metaUnit fp))
           visible := true },
         { id := "measure-room-" ++ r.id ++ "-" ++ toString 1
           start := p1, «end» := p0
           label := some (formatMeasurement (distance p1 p0) (metaScale fp) (metaUnit fp))
           visible := true }]) ∧
    (∀ (fp : FloorPlan) (r : Room) (q : Point),
      fp.walls = [] → fp.rooms = [r] → r.points = [q] →
      calculateAutoMeasurements fp =
        [{ id := "measure-room-" ++ r.id ++ "-" ++ toString 0
           start := q, «end» := q
           label := some (formatMeasurement (distance q q) (metaScale fp) (metaUnit fp))
           visible := true }]) := by
  constructor
  · intro fp r p0 p1 hw hr hpts
    unfold calculateAutoMeasurements
    rw [hw, hr]
    simp only [List.map_nil, List.nil_append, List.flatMap_cons, List.flatMap_nil,
      List.append_nil, hpts]
    show (List.range 2).map _ = _
    rw [show List.range 2 = [0, 1] by rfl]
    simp only [List.map_cons, List.map_nil]
    unfold roomAutoMeasurement
    rw [hpts]
    simp
  · intro fp r q hw hr hpts
    unfold calculateAutoMeasurements
    rw [hw, hr]
    simp only [List.map_nil, List.nil_append, List.flatMap_cons, List.flatMap_nil,
      List.append_nil, hpts]
    show (List.range 1).map _ = _
    rw [show List.range 1 = [0] by rfl]
    simp only [List.map_cons, List.map_nil]
    unfold roomAutoMeasurement
    rw [hpts]
    simp

/-- Two-point and one-point rooms for the C10 witness. -/
def twoPointRoom : Room :=
  { id := "r2", name := "r2", points := [⟨0, 0⟩, ⟨3, 4⟩], color := "#e3f2fd" }

/-- C10 witness plan with only the two-point room. -/
def twoPointRoomPlan : FloorPlan :=
  { id := "p2", name := "p2", walls := [], rooms := [twoPointRoom], doors := []
    windows := [], cabinets := [], models3D := [], photos := [], measurements := [] }

/-- One-point room for the C10 witness. -/
def onePointRoom : Room :=
  { id := "r1", name := "r1", points := [⟨5, 6⟩], color := "#fff3e0" }

/-- C10 witness plan with only the one-point room. -/
def onePointRoomPlan : FloorPlan :=
  { id := "p1", name := "p1", walls := [], rooms := [onePointRoom], doors := []
    windows := [], cabinets := [], models3D := [], photos := [], measurements := [] }

/-- Witness for C10 at the concrete 2-point and 1-point rooms. -/
theorem auto_measurements_small_rooms_witness :
    calculateAutoMeasurements twoPointRoomPlan =
      [{ id := "measure-room-" ++ "r2" ++ "-" ++ toString 0
         start := ⟨0, 0⟩, «end» := ⟨3, 4⟩
         label := some (formatMeasurement (distance ⟨0, 0⟩ ⟨3, 4⟩)
           (metaScale twoPointRoomPlan) (metaUnit twoPointRoomPlan))
         visible := true },
       { id := "measure-room-" ++ "r2" ++ "-" ++ toString 1
         start := ⟨3, 4⟩, «end» := ⟨0, 0⟩
         label := some (formatMeasurement (distance ⟨3, 4⟩ ⟨0, 0⟩)
           (metaScale twoPointRoomPlan) (metaUnit twoPointRoomPlan))
         visible := true }] ∧
    calculateAutoMeasurements onePointRoomPlan =
      [{ id := "measure-room-" ++ "r1" ++ "-" ++ toString 0
         start := ⟨5, 6⟩, «end» := ⟨5, 6⟩
         label := some (formatMeasurement (distance ⟨5, 6⟩ ⟨5, 6⟩)
           (metaScale onePointRoomPlan) (metaUnit onePointRoomPlan))
         visible := true }] :=
  ⟨auto_measurements_small_rooms.1 twoPointRoomPlan twoPointRoom ⟨0, 0⟩ ⟨3, 4⟩ rfl rfl rfl,
    auto_measurements_small_rooms.2 onePointRoomPlan onePointRoom ⟨5, 6⟩ rfl rfl rfl⟩

/-! ## Mesh-type facts for the projection stages -/

/-- Every mesh a room contributes is a floor or a ceiling. -/
theorem roomMeshes_type (cx cy : Option ℚ) (s : ℚ) (r : Room) (m : Mesh)
    (hm : m ∈ roomMeshes cx cy s r) :
    m.type = MeshType.floor ∨ m.type = MeshType.ceiling := by
  unfold roomMeshes at hm
  split at hm
  · simp at hm
  · simp only [List.mem_cons, List.mem_singleton, List.not_mem_nil, or_false] at hm
    rcases hm with h | h <;> subst h
    · exact Or.inl rfl
    · exact Or.inr rfl

/-- Every mesh a cabinet contributes (body or handle) has type `cabinet`. -/
theorem cabinetMeshes_type (cx cy : Option ℚ) (s : ℚ) (c : Cabinet) (m : Mesh)
    (hm : m ∈ cabinetMeshes cx cy s c) : m.type = MeshType.cabinet := by
  unfold cabinetMeshes at hm
  split at hm
  · simp only [List.mem_singleton] at hm
    subst hm
    rfl
  · simp only [List.mem_cons, List.mem_singleton, List.not_mem_nil, or_false] at hm
    rcases hm with h | h <;> subst h <;> rfl

/-! ## C1 — per-wall box descriptors -/

/-- C1: writing `K = 0.1 * (metadata.scale / 20)`, the projection emits,
in order, exactly one box descriptor per wall, sized
`(length·K, wallHeight, thickness·K)`, positioned at the projected wall
midpoint `((midX - centerX)·K, (midY - centerY)·K)` at elevation
`wallHeight / 2`, and yawed by `atan2(dy, dx)` — and nothing else of type
`wall`. -/
theorem wall_projection_boxes (fp : FloorPlan) (md : Metadata) (cx cy : ℚ)
    (hmd : fp.metadata = some md) (hs : ¬md.scale = 0)
    (hcx : centerX fp = some cx) (hcy : centerY fp = some cy) :
    ((convertFloorPlanTo3D fp).meshes.filter (fun m => m.type == MeshType.wall)) =
      fp.walls.map (fun w =>
        { geometry := Geom.box
            (Real.sqrt ((((w.«end».x - w.start.x) * (w.«end».x - w.start.x) +
                (w.«end».y - w.start.y) * (w.«end».y - w.start.y) : ℚ) : ℝ)) *
              ((0.1 * (md.scale / 20) : ℚ) : ℝ))
            ((wallHeightOf w : ℚ) : ℝ)
            ((w.thickness : ℝ) * ((0.1 * (md.scale / 20) : ℚ) : ℝ))
          position :=
            { x := some (((w.start.x + w.«end».x) / 2 - cx) * (0.1 * (md.scale / 20)))
              y := wallHeightOf w / 2
              z := some (((w.start.y + w.«end».y) / 2 - cy) * (0.1 * (md.scale / 20))) }
          rotation :=
            { x := 0
              y := atan2 ((w.«end».y - w.start.y : ℚ) : ℝ) ((w.«end».x - w.start.x : ℚ) : ℝ)
              z := 0 }
          type := MeshType.wall
          id := w.id
          modelUrl := none }) := by
  have hms : metaScale fp = md.scale := by
    simp [metaScale, hmd, hs]
  unfold convertFloorPlanTo3D
  simp only [List.filter_append]
  have h1 : (fp.walls.map (wallMesh (centerX fp) (centerY fp) (metaScale fp / 20))).filter
      (fun m => m.type == MeshType.wall) =
      fp.walls.map (wallMesh (centerX fp) (centerY fp) (metaScale fp / 20)) := by
    apply List.filter_eq_self.mpr
    intro m hm
    obtain ⟨w, _, rfl⟩ := List.mem_map.mp hm
    rfl
  have h2 : ((fp.rooms.flatMap (roomMeshes (centerX fp) (centerY fp) (metaScale fp / 20))).filter
      (fun m => m.type == MeshType.wall)) = [] := by
    apply List.filter_eq_nil_iff.mpr
    intro m hm
    obtain ⟨r, _, hmr⟩ := List.mem_flatMap.mp hm
    rcases roomMeshes_type _ _ _ _ _ hmr with h | h <;> simp [h]
  have h3 : ((fp.doors.map (doorMesh (centerX fp) (centerY fp) (metaScale fp / 20))).filter
      (fun m => m.type == MeshType.wall)) = [] := by
    apply List.filter_eq_nil_iff.mpr
    intro m hm
    obtain ⟨d, _, rfl⟩ := List.mem_map.mp hm
    simp [doorMesh]
  have h4 : ((fp.windows.map (windowMesh (centerX fp) (centerY fp) (metaScale fp / 20))).filter
      (fun m => m.type == MeshType.wall)) = [] := by
    apply List.filter_eq_nil_iff.mpr
    intro m hm
    obtain ⟨w, _, rfl⟩ := List.mem_map.mp hm
    simp [windowMesh]
  have h5 : ((fp.cabinets.flatMap (cabinetMeshes (centerX fp) (centerY fp) (metaScale fp / 20))).filter
      (fun m => m.type == MeshType.wall)) = [] := by
    apply List.filter_eq_nil_iff.mpr
    intro m hm
    obtain ⟨c, _, hmc⟩ := List.mem_flatMap.mp hm
    simp [cabinetMeshes_type _ _ _ _ _ hmc]
  have h6 : ((fp.models3D.map (modelMesh (centerX fp) (centerY fp) (metaScale fp / 20))).filter
      (fun m => m.type == MeshType.wall)) = [] := by
    apply List.filter_eq_nil_iff.mpr
    intro m hm
    obtain ⟨x, _, rfl⟩ := List.mem_map.mp hm
    simp [modelMesh]
  rw [h1, h2, h3, h4, h5, h6]
  simp only [List.append_nil, List.nil_append]
  rw [hms, hcx, hcy]
  apply List.map_congr_left
  intro w _
  unfold wallMesh
  simp only [projectCoord, Option.map_some]
  refine congrArg₂ (fun g p => Mesh.mk g p _ _ _ _) ?_ ?_
  · refine congrArg₂ (fun a b => Geom.box a _ b) ?_ ?_
    · push_cast
      ring
    · push_cast
      ring
  · refine congrArg₂ (fun a b => Vec3.mk a _ b) ?_ ?_
    · refine congrArg some ?_
      ring
    · refine congrArg some ?_
      ring

/-- The x-centre of the scenario plan's bounds. -/
theorem wallScenarioPlan_centerX : centerX wallScenarioPlan = some 50 := by
  simp [centerX, boundsXs, foldMin, foldMax, wallScenarioPlan]
  norm_num

/-- The y-centre of the scenario plan's bounds. -/
theorem wallScenarioPlan_centerY : centerY wallScenarioPlan = some 0 := by
  simp [centerY, boundsYs, foldMin, foldMax, wallScenarioPlan]

/-- Witness for C1 on the one-wall scenario plan (centre `(50, 0)`,
scale 20). -/
theorem wall_projection_boxes_witness :
    ((convertFloorPlanTo3D wallScenarioPlan).meshes.filter
        (fun m => m.type == MeshType.wall)) =
      wallScenarioPlan.walls.map (fun w =>
        { geometry := Geom.box
            (Real.sqrt ((((w.«end».x - w.start.x) * (w.«end».x - w.start.x) +
                (w.«end».y - w.start.y) * (w.«end».y - w.start.y) : ℚ) : ℝ)) *
              ((0.1 * ((20 : ℚ) / 20) : ℚ) : ℝ))
            ((wallHeightOf w : ℚ) : ℝ)
            ((w.thickness : ℝ) * ((0.1 * ((20 : ℚ) / 20) : ℚ) : ℝ))
          position :=
            { x := some (((w.start.x + w.«end».x) / 2 - 50) * (0.1 * ((20 : ℚ) / 20)))
              y := wallHeightOf w / 2
              z := some (((w.start.y + w.«end».y) / 2 - 0) * (0.1 * ((20 : ℚ) / 20))) }
          rotation :=
            { x := 0
              y := atan2 ((w.«end».y - w.start.y : ℚ) : ℝ) ((w.«end».x - w.start.x : ℚ) : ℝ)
              z := 0 }
          type := MeshType.wall
          id := w.id
          modelUrl := none }) :=
  wall_projection_boxes wallScenarioPlan
    { createdAt := "", updatedAt := "", scale := 20, unit := MUnit.meters
      showMeasurements := true } 50 0 rfl (by norm_num)
    wallScenarioPlan_centerX wallScenarioPlan_centerY

/-! ## C2 — empty bounds give NaN positions, not the origin -/

/-- A plan with no walls and no rooms but one door at the origin. -/
def emptyDoorPlan : FloorPlan :=
  { id := "p", name := "p", walls := [], rooms := []
    doors := [{ id := "d1", position := ⟨0, 0⟩, angle := 0, width := 40 }]
    windows := [], cabinets := [], models3D := [], photos := [], measurements := [] }

/-- C2 counterexample: with no walls and no rooms the source's bounds stay
`±Infinity`, so the centre `(minX + maxX) / 2` is JS `NaN` (modelled
`none`) and the door at `(0, 0)` is emitted with `NaN` horizontal
coordinates — not the finite `((0 - 0) * K, (0 - 0) * K)` the claim
predicts. -/
theorem empty_bounds_origin_counterexample :
    ((convertFloorPlanTo3D emptyDoorPlan).meshes.map
        (fun m => (m.position.x, m.position.z))) = [(none, none)] ∧
      (none : Option ℚ) ≠ some (((0 : ℚ) - 0) * 0.1 * (20 / 20)) := by
  constructor
  · simp [convertFloorPlanTo3D, emptyDoorPlan, doorMesh, centerX, centerY,
      boundsXs, boundsYs, foldMin, foldMax, projectCoord]
  · simp

/-- C2 amended: when a floor plan has no walls and no rooms, the bounds
centre is `NaN` (`none`), and every emitted mesh has `NaN` horizontal
coordinates (`none`), rather than the claim's finite `(p.x·K, p.y·K)`. -/
theorem empty_bounds_center_nan (fp : FloorPlan) (hw : fp.walls = []) (hr : fp.rooms = []) :
    centerX fp = none ∧ centerY fp = none ∧
      (convertFloorPlanTo3D fp).meshes.all
        (fun m => m.position.x == none && m.position.z == none) = true := by
  have hbx : boundsXs fp = [] := by simp [boundsXs, hw, hr]
  have hby : boundsYs fp = [] := by simp [boundsYs, hw, hr]
  have hcx : centerX fp = none := by simp [centerX, hbx, foldMin]
  have hcy : centerY fp = none := by simp [centerY, hby, foldMin]
  refine ⟨hcx, hcy, ?_⟩
  rw [List.all_eq_true]
  intro m hm
  unfold convertFloorPlanTo3D at hm
  rw [hw, hr, hcx, hcy] at hm
  simp only [List.map_nil, List.flatMap_nil, List.nil_append] at hm
  rcases List.mem_append.mp hm with h | h
  · obtain ⟨d, _, rfl⟩ := List.mem_map.mp h
    simp [doorMesh, projectCoord]
  rcases List.mem_append.mp h with h' | h'
  · obtain ⟨w, _, rfl⟩ := List.mem_map.mp h'
    simp [windowMesh, projectCoord]
  rcases List.mem_append.mp h' with h'' | h''
  · obtain ⟨c, _, hmc⟩ := List.mem_flatMap.mp h''
    unfold cabinetMeshes at hmc
    split at hmc
    · simp only [List.mem_singleton] at hmc
      subst hmc
      simp [projectCoord]
    · simp only [List.mem_cons, List.mem_singleton, List.not_mem_nil, or_false] at hmc
      rcases hmc with h3 | h3 <;> subst h3 <;> simp [projectCoord]
  · obtain ⟨x, _, rfl⟩ := List.mem_map.mp h''
    simp [modelMesh, projectCoord]

/-- Witness for C2 (amended) on the no-walls/no-rooms plan with one door. -/
theorem empty_bounds_center_nan_witness :
    centerX emptyDoorPlan = none ∧ centerY emptyDoorPlan = none ∧
      (convertFloorPlanTo3D emptyDoorPlan).meshes.all
        (fun m => m.position.x == none && m.position.z == none) = true :=
  empty_bounds_center_nan emptyDoorPlan rfl rfl

/-! ## C9 — cabinet handles -/

/-- C9 amended: the pipeline emits exactly one handle per non-island
cabinet (none for islands), and the handle sits at the body's projected
centre displaced by `handleOffset` along the world z-axis — the same
displacement for every cabinet angle; only the handle's rotation carries
the angle. -/
theorem cabinet_handle_world_offset (fp : FloorPlan) :
    ((convertFloorPlanTo3D fp).meshes.filter (fun m => m.type == MeshType.cabinet)) =
      fp.cabinets.flatMap (fun c =>
        { geometry := Geom.box ((c.width : ℝ) * 0.1 * ((metaScale fp / 20 : ℚ) : ℝ))
            ((c.height : ℚ) : ℝ) ((c.depth : ℝ) * 0.1 * ((metaScale fp / 20 : ℚ) : ℝ))
          position := { x := projectCoord (centerX fp) (metaScale fp / 20) c.position.x
                        y := cabinetElevation c
                        z := projectCoord (centerY fp) (metaScale fp / 20) c.position.y }
          rotation := { x := 0, y := (c.angle : ℝ), z := 0 }
          type := MeshType.cabinet
          id := c.id
          modelUrl := none } ::
        (if c.type = CabinetType.island then []
         else
          [{ geometry := Geom.cylinder 0.02 0.02 0.05 8
             position := { x := projectCoord (centerX fp) (metaScale fp / 20) c.position.x
                           y := cabinetElevation c
                           z := (projectCoord (centerY fp) (metaScale fp / 20) c.position.y).map
                             (· + handleOffset (metaScale fp / 20) c) }
             rotation := { x := Real.pi / 2, y := 0, z := (c.angle : ℝ) }
             type := MeshType.cabinet
             id := c.id ++ "-handle"
             modelUrl := none }])) := by
  unfold convertFloorPlanTo3D
  simp only [List.filter_append]
  have h1 : (fp.walls.map (wallMesh (centerX fp) (centerY fp) (metaScale fp / 20))).filter
      (fun m => m.type == MeshType.cabinet) = [] := by
    apply List.filter_eq_nil_iff.mpr
    intro m hm
    obtain ⟨w, _, rfl⟩ := List.mem_map.mp hm
    simp [wallMesh]
  have h2 : ((fp.rooms.flatMap (roomMeshes (centerX fp) (centerY fp) (metaScale fp / 20))).filter
      (fun m => m.type == MeshType.cabinet)) = [] := by
    apply List.filter_eq_nil_iff.mpr
    intro m hm
    obtain ⟨r, _, hmr⟩ := List.mem_flatMap.mp hm
    rcases roomMeshes_type _ _ _ _ _ hmr with h | h <;> simp [h]
  have h3 : ((fp.doors.map (doorMesh (centerX fp) (centerY fp) (metaScale fp / 20))).filter
      (fun m => m.type == MeshType.cabinet)) = [] := by
    apply List.filter_eq_nil_iff.mpr
    intro m hm
    obtain ⟨d, _, rfl⟩ := List.mem_map.mp hm
    simp [doorMesh]
  have h4 : ((fp.windows.map (windowMesh (centerX fp) (centerY fp) (metaScale fp / 20))).filter
      (fun m => m.type == MeshType.cabinet)) = [] := by
    apply List.filter_eq_nil_iff.mpr
    intro m hm
    obtain ⟨w, _, rfl⟩ := List.mem_map.mp hm
    simp [windowMesh]
  have h5 : ((fp.cabinets.flatMap (cabinetMeshes (centerX fp) (centerY fp) (metaScale fp / 20))).filter
      (fun m => m.type == MeshType.cabinet)) =
      fp.cabinets.flatMap (cabinetMeshes (centerX fp) (centerY fp) (metaScale fp / 20)) := by
    apply List.filter_eq_self.mpr
    intro m hm
    obtain ⟨c, _, hmc⟩ := List.mem_flatMap.mp hm
    simp [cabinetMeshes_type _ _ _ _ _ hmc]
  have h6 : ((fp.models3D.map (modelMesh (centerX fp) (centerY fp) (metaScale fp / 20))).filter
      (fun m => m.type == MeshType.cabinet)) = [] := by
    apply List.filter_eq_nil_iff.mpr
    intro m hm
    obtain ⟨x, _, rfl⟩ := List.mem_map.mp hm
    simp [modelMesh]
  rw [h1, h2, h3, h4, h5, h6]
  simp only [List.append_nil, List.nil_append]
  congr 1
  funext c
  unfold cabinetMeshes
  by_cases hc : c.type = CabinetType.island <;> simp [hc]

/-- The plan for the C9 counterexample: one degenerate wall pinning the
bounds centre at the origin, and one base cabinet at `(0, 10)` rotated by
2 radians. -/
def handlePlan : FloorPlan :=
  { id := "p", name := "p"
    walls := [{ id := "w0", start := ⟨0, 0⟩, «end» := ⟨0, 0⟩, thickness := 8, height := 2.7 }]
    rooms := [], doors := [], windows := []
    cabinets := [{ id := "cab1", type := CabinetType.base, position := ⟨0, 10⟩, angle := 2
                   width := 12, depth := 12, height := 0.9, color := "#8B4513" }]
    models3D := [], photos := [], measurements := [] }

/-- The bounds centre of `handlePlan` is the origin. -/
theorem handlePlan_centerX : centerX handlePlan = some 0 := by
  simp [centerX, boundsXs, foldMin, foldMax, handlePlan]

/-- The y-centre of `handlePlan` is the origin. -/
theorem handlePlan_centerY : centerY handlePlan = some 0 := by
  simp [centerY, boundsYs, foldMin, foldMax, handlePlan]

/-- C9 counterexample: the cabinet in `handlePlan` projects to
`(x, z) = (0, 1)` with handle offset `5/8`; the code places the handle at
`(0, 1 + 5/8)` (world z-axis), while the claimed local-depth-axis
placement at angle `2` gives z-coordinate `1 + (5/8)·cos 2 ≠ 13/8`.  So
the emitted handle position does not rotate with the cabinet's angle. -/
theorem cabinet_handle_rotation_counterexample :
    (((convertFloorPlanTo3D handlePlan).meshes.filter
          (fun m => m.id == "cab1-handle")).map
        (fun m => (m.position.x, m.position.z))) = [(some 0, some (13 / 8))] ∧
      (specHandleCenter 0 1 (5 / 8) 2).2 ≠ ((13 / 8 : ℚ) : ℝ) := by
  constructor
  · simp only [convertFloorPlanTo3D, handlePlan_centerX, handlePlan_centerY]
    simp [handlePlan, wallMesh, cabinetMeshes, projectCoord, handleOffset, metaScale,
      wallHeightOf, cabinetElevation]
    norm_num
  · have hπ := Real.pi_gt_three
    have hcos : Real.cos 2 ≠ 1 := by
      intro h
      have h2 : (2 : ℝ) = 0 :=
        (@Real.cos_eq_one_iff_of_lt_of_lt 2 (by linarith) (by linarith)).mp h
      norm_num at h2
    unfold specHandleCenter
    intro heq
    rw [show ((13 / 8 : ℚ) : ℝ) = 13 / 8 by norm_num] at heq
    apply hcos
    linarith
